import Mathlib

/-!
Verification of the `logger` package of pengsrc/go-shared.

The package is a thin façade over an external leveled-logging engine
(`log.ParseLevel`, the per-level emission filter and the level names) and
external writer utilities (`reopen.NewFileWriter`,
`reopen.NewBufferedFileWriter`).  Those collaborators are not part of the
repository's sources; where a definition below models one of them it is
marked `Modelled from the spec:` and follows the specification's words.
Everything else (`CheckLevel`, `LogFormatter.Format`, `SetLevel`, `Flush`,
the logging methods, `output` and the constructors) is translated directly
from `logger/logger.go`.
-/

/-- Modelled from the spec: the ordered severity enumeration
{Debug, Info, Warn, Error, Fatal} used by the external logging engine
(`log.Level` is not in the sources). -/
inductive Level where
  | debug
  | info
  | warn
  | error
  | fatal
deriving DecidableEq, Repr

/-- Modelled from the spec: numeric severity realising the total order
Debug < Info < Warn < Error < Fatal. -/
def Level.sev : Level → Nat
  | .debug => 0
  | .info => 1
  | .warn => 2
  | .error => 3
  | .fatal => 4

/-- Modelled from the spec: the engine-internal name of each level.  The
spec fixes that the internal name of the Warn level is the word
"warning" (it is "internally normalized to warn before rendering" by the
formatter). -/
def Level.internalName : Level → String
  | .debug => "debug"
  | .info => "info"
  | .warn => "warning"
  | .error => "error"
  | .fatal => "fatal"

/-- Character-wise lower-casing, the semantics of `strings.ToLower` on the
strings relevant here. -/
def strToLower (s : String) : String :=
  String.mk (s.data.map Char.toLower)

/-- Character-wise upper-casing, the semantics of `strings.ToUpper` on the
strings relevant here. -/
def strToUpper (s : String) : String :=
  String.mk (s.data.map Char.toUpper)

/-- Modelled from the spec: `parseLevel(name)` accepts the case-insensitive
names "debug"|"info"|"warn"|"error"|"fatal"; any other string fails with
an InvalidLevel error.  (`log.ParseLevel` itself is an external
collaborator, absent from the sources; the switch is rendered as an
if-chain.) -/
def parseLevel (lvl : String) : Except String Level :=
  let l := strToLower lvl
  if l = "debug" then Except.ok Level.debug
  else if l = "info" then Except.ok Level.info
  else if l = "warn" then Except.ok Level.warn
  else if l = "error" then Except.ok Level.error
  else if l = "fatal" then Except.ok Level.fatal
  else Except.error ("not a valid level: " ++ lvl)

/-- From `logger.go` `CheckLevel`: returns the error
`log level not valid: "<level>"` when `parseLevel` fails, and no error
otherwise. -/
def CheckLevel (level : String) : Option String :=
  match parseLevel level with
  | Except.error _ => some ("log level not valid: \"" ++ level ++ "\"")
  | Except.ok _ => none

/-- From `logger.go` `LogFormatter.Format`: upper-case the level name,
normalize "WARNING" to "WARN", then left-pad with spaces to width 5. -/
def formatLevelTag (levelName : String) : String :=
  let level := strToUpper levelName
  let level := if level = "WARNING" then "WARN" else level
  if level.length < 5 then String.mk (List.replicate (5 - level.length) ' ') ++ level
  else level

/-- From `logger.go` `LogFormatter.Format`: the produced line is
`[<timestamp> #<pid>] <padded level> -- : <message>\n`.  The timestamp
string is produced by the external `convert.TimeToString` and is taken
here as a parameter. -/
def Format (ts : String) (pid : Nat) (levelName message : String) : String :=
  "[" ++ ts ++ " #" ++ Nat.repr pid ++ "] " ++ formatLevelTag levelName ++ " -- : " ++ message ++ "\n"

deriving instance DecidableEq for Except

/-- A destination as seen by the Logger: either a plain writer (terminal or
reopenable file writer) or a buffered writer wrapping a file writer.  The
lists record the lines handed to each layer, in order.  Modelled from the
spec: the writer utilities (`reopen.NewFileWriter`,
`reopen.NewBufferedFileWriter`) are external collaborators. -/
inductive Dest where
  | plain (file : List String)
  | buffered (buffer : List String) (file : List String)
deriving DecidableEq, Repr

/-- Modelled from the spec: a plain writer appends directly to the file; a
buffered writer appends to an internal buffer without touching the
underlying writer. -/
def Dest.wr : Dest → String → Dest
  | Dest.plain f, s => Dest.plain (f ++ [s])
  | Dest.buffered b f, s => Dest.buffered (b ++ [s]) f

/-- All bytes the destination object has accepted from the Logger, whether
already in the backing file or still buffered. -/
def Dest.received : Dest → List String
  | Dest.plain f => f
  | Dest.buffered b f => f ++ b

/-- The content visible in the backing file. -/
def Dest.backingFile : Dest → List String
  | Dest.plain f => f
  | Dest.buffered _ f => f

/-- Modelled from the spec: `flush` writes the entire accumulated buffer to
the underlying writer in one operation, then clears the buffer; it is a
no-op for a plain writer. -/
def Dest.flush : Dest → Dest
  | Dest.plain f => Dest.plain f
  | Dest.buffered b f => Dest.buffered [] (f ++ b)

/-- Modelled from the spec: `reopen` closes and reacquires the handle at
the same path (content already written stays at the path in the absence of
an external move); a buffered writer flushes pending data first, then
reopens the underlying writer. -/
def Dest.reopen : Dest → Dest
  | Dest.plain f => Dest.plain f
  | Dest.buffered b f => Dest.buffered [] (f ++ b)

/-- The Logger façade's state: the engine's current threshold level and the
destination it writes to (`origLogger.Level` and `origLogger.Out` /
`bufferedOut` in `logger.go`; the destination being buffered corresponds to
`bufferedOut != nil`). -/
structure LoggerState where
  level : Level
  dest : Dest
deriving DecidableEq, Repr

/-- Modelled from the spec: the engine emits a message at level `L` iff
`L ≥ T` for the current threshold `T` (the total order on levels); an
emitted message is rendered by `LogFormatter.Format` with the engine's
internal level name and written to the destination.  The timestamp `ts`
and the process id `pid` are ambient inputs of the formatter. -/
def emit (ts : String) (pid : Nat) (lv : Level) (st : LoggerState) (msg : String) : LoggerState :=
  if st.level.sev ≤ lv.sev then
    { st with dest := st.dest.wr (Format ts pid lv.internalName msg) }
  else st

/-- From `logger.go` `Logger.output`: when at least one variadic argument
is supplied the message is `fmt.Sprintf(formatOrMessage, v...)`, otherwise
`formatOrMessage` is passed through unchanged.  `fmt.Sprintf` is an
external function and is taken as the parameter `sprintf`. -/
def Logger.output {α β : Type} (sprintf : String → List β → String)
    (origin : String → α) (formatOrMessage : String) (v : List β) : α :=
  if v.length > 0 then origin (sprintf formatOrMessage v)
  else origin formatOrMessage

/-- From `logger.go` `Logger.Debug`. -/
def Logger.Debug {β : Type} (sprintf : String → List β → String) (ts : String) (pid : Nat)
    (st : LoggerState) (message : String) : LoggerState :=
  Logger.output sprintf (emit ts pid Level.debug st) message []

/-- From `logger.go` `Logger.DebugF`. -/
def Logger.DebugF {β : Type} (sprintf : String → List β → String) (ts : String) (pid : Nat)
    (st : LoggerState) (fmtStr : String) (v : List β) : LoggerState :=
  Logger.output sprintf (emit ts pid Level.debug st) fmtStr v

/-- From `logger.go` `Logger.Info`. -/
def Logger.Info {β : Type} (sprintf : String → List β → String) (ts : String) (pid : Nat)
    (st : LoggerState) (message : String) : LoggerState :=
  Logger.output sprintf (emit ts pid Level.info st) message []

/-- From `logger.go` `Logger.InfoF`. -/
def Logger.InfoF {β : Type} (sprintf : String → List β → String) (ts : String) (pid : Nat)
    (st : LoggerState) (fmtStr : String) (v : List β) : LoggerState :=
  Logger.output sprintf (emit ts pid Level.info st) fmtStr v

/-- From `logger.go` `Logger.Warn`. -/
def Logger.Warn {β : Type} (sprintf : String → List β → String) (ts : String) (pid : Nat)
    (st : LoggerState) (message : String) : LoggerState :=
  Logger.output sprintf (emit ts pid Level.warn st) message []

/-- From `logger.go` `Logger.WarnF`. -/
def Logger.WarnF {β : Type} (sprintf : String → List β → String) (ts : String) (pid : Nat)
    (st : LoggerState) (fmtStr : String) (v : List β) : LoggerState :=
  Logger.output sprintf (emit ts pid Level.warn st) fmtStr v

/-- From `logger.go` `Logger.Error`. -/
def Logger.Error {β : Type} (sprintf : String → List β → String) (ts : String) (pid : Nat)
    (st : LoggerState) (message : String) : LoggerState :=
  Logger.output sprintf (emit ts pid Level.error st) message []

/-- From `logger.go` `Logger.ErrorF`. -/
def Logger.ErrorF {β : Type} (sprintf : String → List β → String) (ts : String) (pid : Nat)
    (st : LoggerState) (fmtStr : String) (v : List β) : LoggerState :=
  Logger.output sprintf (emit ts pid Level.error st) fmtStr v

/-- From `logger.go` `Logger.Fatal`: emits at Fatal severity; the engine
then terminates the process (the termination itself is recorded by the
callers below via `SetLevelResult.fatalExit`). -/
def Logger.Fatal {β : Type} (sprintf : String → List β → String) (ts : String) (pid : Nat)
    (st : LoggerState) (message : String) : LoggerState :=
  Logger.output sprintf (emit ts pid Level.fatal st) message []

/-- From `logger.go` `Logger.FatalF`. -/
def Logger.FatalF {β : Type} (sprintf : String → List β → String) (ts : String) (pid : Nat)
    (st : LoggerState) (fmtStr : String) (v : List β) : LoggerState :=
  Logger.output sprintf (emit ts pid Level.fatal st) fmtStr v

/-- Outcome of `Logger.SetLevel`: either the process terminates through the
fatal path (carrying the state after the fatal line was emitted), or the
call returns normally with the updated state. -/
inductive SetLevelResult where
  | fatalExit (st : LoggerState)
  | ok (st : LoggerState)
deriving DecidableEq, Repr

/-- From `logger.go` `Logger.SetLevel`: parse the level name; on failure
call `l.Fatal` with the message `log level not valid: "<level>"` (which
terminates the process, so the assignment is never reached); on success
store the parsed level. -/
def Logger.SetLevel {β : Type} (sprintf : String → List β → String) (ts : String) (pid : Nat)
    (st : LoggerState) (level : String) : SetLevelResult :=
  match parseLevel level with
  | Except.error _ =>
      SetLevelResult.fatalExit
        (Logger.Fatal sprintf ts pid st ("log level not valid: \"" ++ level ++ "\""))
  | Except.ok lvl => SetLevelResult.ok { st with level := lvl }

/-- From `logger.go` `Logger.Flush`: delegates to the buffered destination
when present (`l.bufferedOut != nil`), otherwise does nothing. -/
def LoggerState.doFlush (st : LoggerState) : LoggerState :=
  match st.dest with
  | Dest.buffered b f => { st with dest := Dest.flush (Dest.buffered b f) }
  | Dest.plain _ => st

/-- Outcome of a Logger constructor: an error returned to the caller, a
process termination through the fatal path, or a constructed Logger. -/
inductive NewLoggerResult where
  | err (e : String)
  | fatalExit (st : LoggerState)
  | ok (st : LoggerState)
deriving DecidableEq, Repr

/-- From `logger.go` `NewLogger`: a nil output is rejected with
`must specify the output for logger`; the logger starts at `log.WarnLevel`;
when exactly one level argument is given it is first validated with
`CheckLevel` (returning the error to the caller) and only then applied via
`SetLevel`. -/
def NewLogger {β : Type} (sprintf : String → List β → String) (ts : String) (pid : Nat)
    (out : Option Dest) (level : List String) : NewLoggerResult :=
  match out with
  | none => NewLoggerResult.err "must specify the output for logger"
  | some d =>
    let l : LoggerState := { level := Level.warn, dest := d }
    match level with
    | [l0] =>
      match CheckLevel l0 with
      | some e => NewLoggerResult.err e
      | none =>
        match Logger.SetLevel sprintf ts pid l l0 with
        | SetLevelResult.fatalExit st2 => NewLoggerResult.fatalExit st2
        | SetLevelResult.ok st2 => NewLoggerResult.ok st2
    | _ => NewLoggerResult.ok l

/-- The kind of background Signal Coordinator task a constructor spawns
with `go func() {...}`. -/
inductive CoordKind where
  | fileCoord
  | bufferedCoord
deriving DecidableEq, Repr

/-- The result of `os.Stat` on the parent directory of the log path:
`none` models a stat error (directory does not exist), `some info` carries
`info.IsDir()`. -/
structure GoFileInfo where
  isDir : Bool
deriving DecidableEq, Repr

/-- From `logger.go` `NewFileLogger`: reject a missing or non-directory
parent (`path.Dir` of the file path is taken as the parameter `dir`), open
a fresh reopenable file writer, spawn the signal goroutine, then delegate
to `NewLogger`.  The second component records the goroutines spawned; the
goroutine is started before `NewLogger` runs, so it is present even when
`NewLogger` returns an error. -/
def NewFileLogger {β : Type} (sprintf : String → List β → String) (ts : String) (pid : Nat)
    (dir : String) (stat : Option GoFileInfo) (level : List String) :
    NewLoggerResult × List CoordKind :=
  match stat with
  | none => (NewLoggerResult.err ("directory not exists: " ++ dir), [])
  | some info =>
    if info.isDir = false then (NewLoggerResult.err ("path is not directory: " ++ dir), [])
    else (NewLogger sprintf ts pid (some (Dest.plain [])) level, [CoordKind.fileCoord])

/-- From `logger.go` `NewBufferedFileLogger`: same directory validation,
then a buffered writer wrapping the file writer, the signal/timer
goroutine, and `NewLogger` on the buffered writer; on success
`l.bufferedOut` is the buffered writer (here: the destination is
`Dest.buffered`). -/
def NewBufferedFileLogger {β : Type} (sprintf : String → List β → String) (ts : String)
    (pid : Nat) (dir : String) (stat : Option GoFileInfo) (level : List String) :
    NewLoggerResult × List CoordKind :=
  match stat with
  | none => (NewLoggerResult.err ("directory not exists: " ++ dir), [])
  | some info =>
    if info.isDir = false then (NewLoggerResult.err ("path is not directory: " ++ dir), [])
    else (NewLogger sprintf ts pid (some (Dest.buffered [] [])) level, [CoordKind.bufferedCoord])

/-- From `logger.go` `NewTerminalLogger`: `NewLogger` on standard output
(a plain, unbuffered destination). -/
def NewTerminalLogger {β : Type} (sprintf : String → List β → String) (ts : String) (pid : Nat)
    (level : List String) : NewLoggerResult :=
  NewLogger sprintf ts pid (some (Dest.plain [])) level

/-- An event waking a Signal Coordinator: a hang-up signal on its channel,
or (buffered coordinators only) expiry of the periodic timer. -/
inductive CoordEvent where
  | sighup
  | timeout
deriving DecidableEq, Repr

/-- From `logger.go` `NewBufferedFileLogger`: the timer arm of the select
waits `10 * time.Second`. -/
def flushIntervalSeconds : Nat := 10

/-- From `logger.go` `NewFileLogger`'s goroutine body: the select has a
single arm, the signal channel, and handles it by calling `out.Reopen()`;
any error from `Reopen` is discarded (the call's result is ignored). -/
def fileCoordStep (d : Dest) : Dest :=
  d.reopen

/-- From `logger.go` `NewBufferedFileLogger`'s goroutine body: a signal is
handled by `bufferedOut.Reopen()`, a timer expiry by
`bufferedOut.Flush()`; the results of both calls are discarded, so no
failure reaches any caller. -/
def bufferedCoordStep (d : Dest) : CoordEvent → Dest
  | CoordEvent.sighup => d.reopen
  | CoordEvent.timeout => d.flush

/-- The coordinator loop: handle the sequence of wake-up events in order. -/
def bufferedCoordRun (d : Dest) (evs : List CoordEvent) : Dest :=
  evs.foldl bufferedCoordStep d

/-- Writing a sequence of already-formatted lines to a destination. -/
def Dest.writeAll (d : Dest) (ss : List String) : Dest :=
  ss.foldl Dest.wr d

theorem Dest.received_wr (d : Dest) (s : String) :
    (d.wr s).received = d.received ++ [s] := by
  cases d <;> simp [Dest.wr, Dest.received]

theorem Dest.writeAll_buffered (f : List String) (ss : List String) :
    ∀ b, Dest.writeAll (Dest.buffered b f) ss = Dest.buffered (b ++ ss) f := by
  induction ss with
  | nil => intro b; simp [Dest.writeAll]
  | cons s ssl ih =>
    intro b
    show Dest.writeAll (Dest.buffered (b ++ [s]) f) ssl = _
    rw [ih]
    simp

theorem digitChar_big (m : Nat) (h : 16 ≤ m) : Nat.digitChar m = '*' := by
  have h0 : m ≠ 0 := by omega
  have h1 : m ≠ 1 := by omega
  have h2 : m ≠ 2 := by omega
  have h3 : m ≠ 3 := by omega
  have h4 : m ≠ 4 := by omega
  have h5 : m ≠ 5 := by omega
  have h6 : m ≠ 6 := by omega
  have h7 : m ≠ 7 := by omega
  have h8 : m ≠ 8 := by omega
  have h9 : m ≠ 9 := by omega
  have h10 : m ≠ 10 := by omega
  have h11 : m ≠ 11 := by omega
  have h12 : m ≠ 12 := by omega
  have h13 : m ≠ 13 := by omega
  have h14 : m ≠ 14 := by omega
  have h15 : m ≠ 15 := by omega
  unfold Nat.digitChar
  simp [h0, h1, h2, h3, h4, h5, h6, h7, h8, h9, h10, h11, h12, h13, h14, h15]

theorem digitChar_ne_newline (m : Nat) : Nat.digitChar m ≠ Char.ofNat 10 := by
  rcases Nat.lt_or_ge m 16 with h | h
  · interval_cases m <;> decide
  · rw [digitChar_big m h]
    decide

theorem mem_toDigitsCore (b : Nat) (fuel : Nat) :
    ∀ (n : Nat) (ds : List Char) (c : Char), c ∈ Nat.toDigitsCore b fuel n ds →
      c ∈ ds ∨ ∃ m, c = Nat.digitChar m := by
  induction fuel with
  | zero =>
    intro n ds c h
    exact Or.inl h
  | succ fuel ih =>
    intro n ds c h
    unfold Nat.toDigitsCore at h
    by_cases hz : n / b = 0
    · simp only [hz, if_pos, if_true, List.mem_cons] at h
      rcases h with h | h
      · exact Or.inr ⟨n % b, h⟩
      · exact Or.inl h
    · simp only [hz, if_neg, if_false, ite_false] at h
      rcases ih (n / b) (Nat.digitChar (n % b) :: ds) c h with h2 | h2
      · rcases List.mem_cons.mp h2 with h3 | h3
        · exact Or.inr ⟨n % b, h3⟩
        · exact Or.inl h3
      · exact Or.inr h2

theorem newline_not_mem_repr (n : Nat) : Char.ofNat 10 ∉ (Nat.repr n).data := by
  intro h
  have h2 : Char.ofNat 10 ∈ Nat.toDigitsCore 10 (n + 1) n [] := by
    simpa [Nat.repr, Nat.toDigits, List.asString] using h
  rcases mem_toDigitsCore 10 (n + 1) n [] (Char.ofNat 10) h2 with h3 | ⟨m, hm⟩
  · simp at h3
  · exact digitChar_ne_newline m hm.symm

/-- C1: level-name validation succeeds exactly for the five case-insensitive
names "debug", "info", "warn", "error", "fatal"; every other string is
rejected by both `parseLevel` and `CheckLevel`, the latter with the
`log level not valid` error. -/
theorem c1_level_validation (s : String) :
    ((∃ l, parseLevel s = Except.ok l) ↔
      strToLower s ∈ ["debug", "info", "warn", "error", "fatal"])
    ∧ (CheckLevel s = none ↔ strToLower s ∈ ["debug", "info", "warn", "error", "fatal"])
    ∧ (strToLower s ∉ ["debug", "info", "warn", "error", "fatal"] →
        CheckLevel s = some ("log level not valid: \"" ++ s ++ "\"")) := by
  by_cases h1 : strToLower s = "debug"
  · simp [CheckLevel, parseLevel, h1]
  by_cases h2 : strToLower s = "info"
  · simp [CheckLevel, parseLevel, h1, h2]
  by_cases h3 : strToLower s = "warn"
  · simp [CheckLevel, parseLevel, h1, h2, h3]
  by_cases h4 : strToLower s = "error"
  · simp [CheckLevel, parseLevel, h1, h2, h3, h4]
  by_cases h5 : strToLower s = "fatal"
  · simp [CheckLevel, parseLevel, h1, h2, h3, h4, h5]
  · simp [CheckLevel, parseLevel, h1, h2, h3, h4, h5]

/-- C1 witness: "DeBuG" (case-insensitive) is accepted, "invalid" is
rejected with the InvalidLevel error. -/
theorem c1_witness :
    CheckLevel "DeBuG" = none ∧
    CheckLevel "invalid" = some "log level not valid: \"invalid\"" :=
  ⟨(c1_level_validation "DeBuG").2.1.mpr (by decide),
   (c1_level_validation "invalid").2.2 (by decide)⟩

theorem no_newline_in_prefix (ts msg tag : String) (pid : Nat)
    (hts : Char.ofNat 10 ∉ ts.data) (hmsg : Char.ofNat 10 ∉ msg.data)
    (htag : Char.ofNat 10 ∉ tag.data) :
    Char.ofNat 10 ∉ ("[" ++ ts ++ " #" ++ Nat.repr pid ++ "] " ++ tag ++ " -- : " ++ msg).data := by
  simp only [String.data_append, List.mem_append, not_or]
  exact ⟨⟨⟨⟨⟨⟨⟨by decide, hts⟩, by decide⟩, newline_not_mem_repr pid⟩, by decide⟩, htag⟩,
    by decide⟩, hmsg⟩

/-- C3: the formatter produces exactly one newline-terminated line of the
form `[<timestamp> #<pid>] <LEVEL> -- : <message>\n`, with the level tag
upper-cased and right-aligned to width 5, and with the engine-internal
level name "warning" normalized to the 4-letter tag "WARN" before
padding. -/
theorem c3_formatter (ts msg name : String) (pid : Nat)
    (hname : name ∈ ["debug", "info", "warning", "error", "fatal"])
    (hts : Char.ofNat 10 ∉ ts.data) (hmsg : Char.ofNat 10 ∉ msg.data) :
    Format ts pid name msg =
      "[" ++ ts ++ " #" ++ Nat.repr pid ++ "] " ++ formatLevelTag name ++ " -- : " ++ msg ++ "\n"
    ∧ (formatLevelTag name).length = 5
    ∧ formatLevelTag "warning" = " WARN"
    ∧ formatLevelTag "debug" = "DEBUG"
    ∧ formatLevelTag "info" = " INFO"
    ∧ formatLevelTag "error" = "ERROR"
    ∧ formatLevelTag "fatal" = "FATAL"
    ∧ (∃ line, Format ts pid name msg = line ++ "\n" ∧ Char.ofNat 10 ∉ line.data) := by
  have htag : (formatLevelTag name).length = 5 ∧ Char.ofNat 10 ∉ (formatLevelTag name).data := by
    simp only [List.mem_cons, List.not_mem_nil, or_false] at hname
    rcases hname with h | h | h | h | h <;> subst h <;> exact ⟨by decide, by decide⟩
  refine ⟨rfl, htag.1, by decide, by decide, by decide, by decide, by decide, ?_⟩
  exact ⟨"[" ++ ts ++ " #" ++ Nat.repr pid ++ "] " ++ formatLevelTag name ++ " -- : " ++ msg,
    rfl, no_newline_in_prefix ts msg (formatLevelTag name) pid hts hmsg htag.2⟩

/-- C3 witness: a concrete entry at the "warning" engine level. -/
theorem c3_witness :
    ("warning" : String) ∈ ["debug", "info", "warning", "error", "fatal"]
    ∧ Char.ofNat 10 ∉ ("2017-09-01T10:02:03.000Z" : String).data
    ∧ Char.ofNat 10 ∉ ("hello" : String).data
    ∧ (Format "2017-09-01T10:02:03.000Z" 1234 "warning" "hello" =
        "[" ++ "2017-09-01T10:02:03.000Z" ++ " #" ++ Nat.repr 1234 ++ "] " ++
          formatLevelTag "warning" ++ " -- : " ++ "hello" ++ "\n"
      ∧ (formatLevelTag "warning").length = 5
      ∧ formatLevelTag "warning" = " WARN"
      ∧ formatLevelTag "debug" = "DEBUG"
      ∧ formatLevelTag "info" = " INFO"
      ∧ formatLevelTag "error" = "ERROR"
      ∧ formatLevelTag "fatal" = "FATAL"
      ∧ (∃ line, Format "2017-09-01T10:02:03.000Z" 1234 "warning" "hello" = line ++ "\n"
          ∧ Char.ofNat 10 ∉ line.data)) :=
  ⟨by decide, by decide, by decide,
   c3_formatter "2017-09-01T10:02:03.000Z" "hello" "warning" 1234 (by decide) (by decide)
     (by decide)⟩

theorem emit_received (ts : String) (pid : Nat) (lv : Level) (st : LoggerState) (msg : String) :
    (emit ts pid lv st msg).dest.received =
      (if st.level.sev ≤ lv.sev then st.dest.received ++ [Format ts pid lv.internalName msg]
       else st.dest.received) := by
  unfold emit
  split
  next => exact Dest.received_wr st.dest _
  next => rfl

theorem Debug_eq_emit {β : Type} (sprintf : String → List β → String) (ts : String) (pid : Nat)
    (st : LoggerState) (msg : String) :
    Logger.Debug sprintf ts pid st msg = emit ts pid Level.debug st msg := rfl

theorem Info_eq_emit {β : Type} (sprintf : String → List β → String) (ts : String) (pid : Nat)
    (st : LoggerState) (msg : String) :
    Logger.Info sprintf ts pid st msg = emit ts pid Level.info st msg := rfl

theorem Warn_eq_emit {β : Type} (sprintf : String → List β → String) (ts : String) (pid : Nat)
    (st : LoggerState) (msg : String) :
    Logger.Warn sprintf ts pid st msg = emit ts pid Level.warn st msg := rfl

theorem Error_eq_emit {β : Type} (sprintf : String → List β → String) (ts : String) (pid : Nat)
    (st : LoggerState) (msg : String) :
    Logger.Error sprintf ts pid st msg = emit ts pid Level.error st msg := rfl

theorem Fatal_eq_emit {β : Type} (sprintf : String → List β → String) (ts : String) (pid : Nat)
    (st : LoggerState) (msg : String) :
    Logger.Fatal sprintf ts pid st msg = emit ts pid Level.fatal st msg := rfl

/-- C2: a logging call at level L on a logger with threshold T hands
exactly one formatted line to the destination iff `L.sev ≥ T.sev` in the
order Debug < Info < Warn < Error < Fatal, and otherwise leaves the
destination untouched; in particular at threshold warn, Debug and Info
produce no output while Warn and Error each produce exactly one line. -/
theorem c2_emission {β : Type} (sprintf : String → List β → String) (ts : String) (pid : Nat)
    (st : LoggerState) (msg : String) :
    ((Logger.Debug sprintf ts pid st msg).dest.received =
      (if st.level.sev ≤ (Level.debug).sev then
        st.dest.received ++ [Format ts pid "debug" msg] else st.dest.received))
    ∧ ((Logger.Info sprintf ts pid st msg).dest.received =
      (if st.level.sev ≤ (Level.info).sev then
        st.dest.received ++ [Format ts pid "info" msg] else st.dest.received))
    ∧ ((Logger.Warn sprintf ts pid st msg).dest.received =
      (if st.level.sev ≤ (Level.warn).sev then
        st.dest.received ++ [Format ts pid "warning" msg] else st.dest.received))
    ∧ ((Logger.Error sprintf ts pid st msg).dest.received =
      (if st.level.sev ≤ (Level.error).sev then
        st.dest.received ++ [Format ts pid "error" msg] else st.dest.received))
    ∧ ((Logger.Fatal sprintf ts pid st msg).dest.received =
      (if st.level.sev ≤ (Level.fatal).sev then
        st.dest.received ++ [Format ts pid "fatal" msg] else st.dest.received))
    ∧ (∀ d : Dest, Logger.Debug sprintf ts pid ⟨Level.warn, d⟩ msg = ⟨Level.warn, d⟩)
    ∧ (∀ d : Dest, Logger.Info sprintf ts pid ⟨Level.warn, d⟩ msg = ⟨Level.warn, d⟩)
    ∧ (∀ d : Dest, (Logger.Warn sprintf ts pid ⟨Level.warn, d⟩ msg).dest.received =
        d.received ++ [Format ts pid "warning" msg])
    ∧ (∀ d : Dest, (Logger.Error sprintf ts pid ⟨Level.warn, d⟩ msg).dest.received =
        d.received ++ [Format ts pid "error" msg]) := by
  refine ⟨?_, ?_, ?_, ?_, ?_, ?_, ?_, ?_, ?_⟩
  · rw [Debug_eq_emit, emit_received]; rfl
  · rw [Info_eq_emit, emit_received]; rfl
  · rw [Warn_eq_emit, emit_received]; rfl
  · rw [Error_eq_emit, emit_received]; rfl
  · rw [Fatal_eq_emit, emit_received]; rfl
  · intro d; rw [Debug_eq_emit]; simp [emit, Level.sev]
  · intro d; rw [Info_eq_emit]; simp [emit, Level.sev]
  · intro d; rw [Warn_eq_emit, emit_received]; simp [Level.sev, Level.internalName, Dest.received]
  · intro d; rw [Error_eq_emit, emit_received]; simp [Level.sev, Level.internalName, Dest.received]

/-- C4: `SetLevel` with a name that fails validation goes through the
fatal path — it emits the fatal line and the process terminates
(`SetLevelResult.fatalExit`), no error is returned; with a valid name it
updates the threshold and returns normally. -/
theorem c4_setlevel {β : Type} (sprintf : String → List β → String) (ts : String) (pid : Nat)
    (st : LoggerState) (level : String) :
    (∀ e, parseLevel level = Except.error e →
      Logger.SetLevel sprintf ts pid st level =
        SetLevelResult.fatalExit
          (emit ts pid Level.fatal st ("log level not valid: \"" ++ level ++ "\"")))
    ∧ (∀ lvl, parseLevel level = Except.ok lvl →
      Logger.SetLevel sprintf ts pid st level = SetLevelResult.ok { st with level := lvl }) := by
  constructor
  · intro e he
    unfold Logger.SetLevel
    rw [he]
    rfl
  · intro lvl hl
    unfold Logger.SetLevel
    rw [hl]

/-- C4 witness: "bogus" terminates fatally (after emitting the fatal
line), "info" updates the level and returns. -/
theorem c4_witness :
    parseLevel "bogus" = Except.error "not a valid level: bogus"
    ∧ Logger.SetLevel (fun s (_ : List String) => s) "t" 7 ⟨Level.warn, Dest.plain []⟩ "bogus" =
        SetLevelResult.fatalExit
          (emit "t" 7 Level.fatal ⟨Level.warn, Dest.plain []⟩ "log level not valid: \"bogus\"")
    ∧ Logger.SetLevel (fun s (_ : List String) => s) "t" 7 ⟨Level.warn, Dest.plain []⟩ "info" =
        SetLevelResult.ok ⟨Level.info, Dest.plain []⟩ :=
  ⟨by decide,
   (c4_setlevel (fun s (_ : List String) => s) "t" 7 ⟨Level.warn, Dest.plain []⟩ "bogus").1
     "not a valid level: bogus" (by decide),
   (c4_setlevel (fun s (_ : List String) => s) "t" 7 ⟨Level.warn, Dest.plain []⟩ "info").2
     Level.info (by decide)⟩

/-- C5: on a buffered destination, logged lines accumulate in the buffer
and are invisible in the backing file until a flush; `Flush` appends the
entire buffer to the backing file in order (losing no byte) and clears
it; flushing an empty buffer is a no-op, as is `Flush` on a logger whose
destination is not buffered. -/
theorem c5_buffered_flush {β : Type} (sprintf : String → List β → String) (ts : String)
    (pid : Nat) (lv : Level) (b f fl : List String) (msg : String) (ss : List String) :
    ((Logger.Error sprintf ts pid ⟨lv, Dest.buffered b f⟩ msg).dest.backingFile = f)
    ∧ (∀ l2 : Level, (emit ts pid l2 ⟨lv, Dest.buffered b f⟩ msg).dest.backingFile = f)
    ∧ (Dest.writeAll (Dest.buffered b f) ss = Dest.buffered (b ++ ss) f)
    ∧ (Dest.flush (Dest.buffered b f) = Dest.buffered [] (f ++ b))
    ∧ ((Dest.flush (Dest.buffered b f)).received = (Dest.buffered b f).received)
    ∧ (LoggerState.doFlush ⟨lv, Dest.buffered b f⟩ = ⟨lv, Dest.buffered [] (f ++ b)⟩)
    ∧ (LoggerState.doFlush ⟨lv, Dest.buffered [] fl⟩ = ⟨lv, Dest.buffered [] fl⟩)
    ∧ (LoggerState.doFlush ⟨lv, Dest.plain fl⟩ = ⟨lv, Dest.plain fl⟩)
    ∧ (Dest.flush (Dest.writeAll (Dest.buffered b f) ss) = Dest.buffered [] (f ++ (b ++ ss))) := by
  refine ⟨?_, ?_, Dest.writeAll_buffered f ss b, rfl, ?_, ?_, ?_, rfl, ?_⟩
  · rw [Error_eq_emit]
    unfold emit
    split <;> rfl
  · intro l2
    unfold emit
    split <;> rfl
  · simp [Dest.flush, Dest.received]
  · simp [LoggerState.doFlush, Dest.flush]
  · simp [LoggerState.doFlush, Dest.flush]
  · rw [Dest.writeAll_buffered f ss b]
    rfl

theorem coordStep_received (d : Dest) (ev : CoordEvent) :
    (bufferedCoordStep d ev).received = d.received := by
  cases ev <;> cases d <;> simp [bufferedCoordStep, Dest.reopen, Dest.flush, Dest.received]

theorem coordRun_received (evs : List CoordEvent) :
    ∀ d : Dest, (bufferedCoordRun d evs).received = d.received := by
  induction evs with
  | nil => intro d; rfl
  | cons ev rest ih =>
    intro d
    show (bufferedCoordRun (bufferedCoordStep d ev) rest).received = d.received
    rw [ih, coordStep_received]

theorem coordRun_drained (evs : List CoordEvent) :
    ∀ x : List String, bufferedCoordRun (Dest.buffered [] x) evs = Dest.buffered [] x := by
  induction evs with
  | nil => intro x; rfl
  | cons ev rest ih =>
    intro x
    show bufferedCoordRun (bufferedCoordStep (Dest.buffered [] x) ev) rest = _
    have hstep : bufferedCoordStep (Dest.buffered [] x) ev = Dest.buffered [] x := by
      cases ev <;> simp [bufferedCoordStep, Dest.reopen, Dest.flush]
    rw [hstep, ih]

/-- C6: each file-backed constructor spawns exactly one background Signal
Coordinator goroutine; the plain-file coordinator's select has only the
signal arm and handles it by `reopen`, while the buffered coordinator also
wakes on the fixed 10-second timer and handles it by `flush`; the
coordinator's steps are total functions into the destination state (the
results of `Reopen`/`Flush` are discarded, so no failure is propagated to
any caller), a coordinator run never loses bytes the destination has
accepted, and after any nonempty run all pending buffered bytes are
durable in the backing file. -/
theorem c6_coordinator {β : Type} (sprintf : String → List β → String) (ts : String) (pid : Nat)
    (dir : String) (level : List String) (d : Dest) (evs : List CoordEvent)
    (b f : List String) :
    ((NewFileLogger sprintf ts pid dir (some ⟨true⟩) level).snd = [CoordKind.fileCoord])
    ∧ ((NewBufferedFileLogger sprintf ts pid dir (some ⟨true⟩) level).snd =
        [CoordKind.bufferedCoord])
    ∧ (fileCoordStep d = d.reopen)
    ∧ (bufferedCoordStep d CoordEvent.sighup = d.reopen)
    ∧ (bufferedCoordStep d CoordEvent.timeout = d.flush)
    ∧ (flushIntervalSeconds = 10)
    ∧ ((bufferedCoordRun d evs).received = d.received)
    ∧ (evs ≠ [] → bufferedCoordRun (Dest.buffered b f) evs = Dest.buffered [] (f ++ b)) := by
  refine ⟨rfl, rfl, rfl, rfl, rfl, rfl, coordRun_received evs d, ?_⟩
  intro hne
  cases evs with
  | nil => exact absurd rfl hne
  | cons ev rest =>
    show bufferedCoordRun (bufferedCoordStep (Dest.buffered b f) ev) rest = _
    have hstep : bufferedCoordStep (Dest.buffered b f) ev = Dest.buffered [] (f ++ b) := by
      cases ev <;> rfl
    rw [hstep, coordRun_drained rest (f ++ b)]

/-- C6 witness: one timer tick flushes the pending line; the plain file
constructor spawns exactly the one signal goroutine. -/
theorem c6_witness :
    ([CoordEvent.timeout] : List CoordEvent) ≠ []
    ∧ bufferedCoordRun (Dest.buffered ["x"] []) [CoordEvent.timeout] = Dest.buffered [] ["x"]
    ∧ (NewFileLogger (fun s (_ : List String) => s) "t" 7 "/logs"
        (some ⟨true⟩) []).snd = [CoordKind.fileCoord] :=
  ⟨by decide,
   (c6_coordinator (fun s (_ : List String) => s) "t" 7 "/logs" [] (Dest.plain [])
      [CoordEvent.timeout] ["x"] []).2.2.2.2.2.2.2 (by decide),
   (c6_coordinator (fun s (_ : List String) => s) "t" 7 "/logs" [] (Dest.plain [])
      [CoordEvent.timeout] ["x"] []).1⟩

theorem checkLevel_none_parse (l0 : String) (h : CheckLevel l0 = none) :
    ∃ lv, parseLevel l0 = Except.ok lv := by
  unfold CheckLevel at h
  rcases hp : parseLevel l0 with e | lv
  · rw [hp] at h
    simp at h
  · exact ⟨lv, rfl⟩

/-- C7: construction-time failures are returned to the caller, never
fatal: an invalid initial level name makes `NewLogger` return the
InvalidLevel error (no logger, no process termination — no constructor
result is ever `fatalExit`), and the file-path constructors return an
error when the parent directory is missing or is not a directory. -/
theorem c7_constructor_errors {β : Type} (sprintf : String → List β → String) (ts : String)
    (pid : Nat) (dir : String) (d : Dest) (lvl e : String) (level : List String) :
    (CheckLevel lvl = some e →
      NewLogger sprintf ts pid (some d) [lvl] = NewLoggerResult.err e)
    ∧ (∀ out level2 st2, NewLogger sprintf ts pid out level2 ≠ NewLoggerResult.fatalExit st2)
    ∧ ((NewFileLogger sprintf ts pid dir none level).fst =
        NewLoggerResult.err ("directory not exists: " ++ dir))
    ∧ ((NewFileLogger sprintf ts pid dir (some ⟨false⟩) level).fst =
        NewLoggerResult.err ("path is not directory: " ++ dir))
    ∧ ((NewBufferedFileLogger sprintf ts pid dir none level).fst =
        NewLoggerResult.err ("directory not exists: " ++ dir))
    ∧ ((NewBufferedFileLogger sprintf ts pid dir (some ⟨false⟩) level).fst =
        NewLoggerResult.err ("path is not directory: " ++ dir)) := by
  refine ⟨?_, ?_, rfl, rfl, rfl, rfl⟩
  · intro h
    simp [NewLogger, h]
  · intro out level2 st2
    cases out with
    | none => simp [NewLogger]
    | some d2 =>
      cases level2 with
      | nil => simp [NewLogger]
      | cons l0 rest =>
        cases rest with
        | cons l1 r2 => simp [NewLogger]
        | nil =>
          rcases hc : CheckLevel l0 with _ | e2
          · rcases checkLevel_none_parse l0 hc with ⟨lv, hp⟩
            simp [NewLogger, hc, Logger.SetLevel, hp]
          · simp [NewLogger, hc]

/-- C7 witness: an invalid initial level is returned as an error by the
generic constructor, and a missing parent directory is returned as an
error by the file constructor. -/
theorem c7_witness :
    CheckLevel "verbose" = some "log level not valid: \"verbose\""
    ∧ NewLogger (fun s (_ : List String) => s) "t" 7 (some (Dest.plain [])) ["verbose"] =
        NewLoggerResult.err "log level not valid: \"verbose\""
    ∧ (NewFileLogger (fun s (_ : List String) => s) "t" 7 "/nope" none []).fst =
        NewLoggerResult.err "directory not exists: /nope" :=
  ⟨by decide,
   (c7_constructor_errors (fun s (_ : List String) => s) "t" 7 "/nope" (Dest.plain [])
      "verbose" "log level not valid: \"verbose\"" []).1 (by decide),
   (c7_constructor_errors (fun s (_ : List String) => s) "t" 7 "/nope" (Dest.plain [])
      "verbose" "log level not valid: \"verbose\"" []).2.2.1⟩

/-- C8: a nil output sink makes the generic constructor fail immediately
with the DestinationRequired error and no logger; with a non-nil sink and
no level argument, or a valid level argument, construction succeeds. -/
theorem c8_destination_required {β : Type} (sprintf : String → List β → String) (ts : String)
    (pid : Nat) (d : Dest) (lvl : String) (level : List String) :
    (NewLogger sprintf ts pid none level =
      NewLoggerResult.err "must specify the output for logger")
    ∧ (NewLogger sprintf ts pid (some d) [] = NewLoggerResult.ok ⟨Level.warn, d⟩)
    ∧ (∀ lv, parseLevel lvl = Except.ok lv →
        NewLogger sprintf ts pid (some d) [lvl] = NewLoggerResult.ok ⟨lv, d⟩) := by
  refine ⟨rfl, rfl, ?_⟩
  intro lv h
  simp [NewLogger, CheckLevel, h, Logger.SetLevel]

/-- C8 witness: nil sink is rejected; a plain sink with no level, and with
the valid level "debug", both construct a logger. -/
theorem c8_witness :
    NewLogger (fun s (_ : List String) => s) "t" 7 none [] =
      NewLoggerResult.err "must specify the output for logger"
    ∧ NewLogger (fun s (_ : List String) => s) "t" 7 (some (Dest.plain [])) [] =
        NewLoggerResult.ok ⟨Level.warn, Dest.plain []⟩
    ∧ NewLogger (fun s (_ : List String) => s) "t" 7 (some (Dest.plain [])) ["debug"] =
        NewLoggerResult.ok ⟨Level.debug, Dest.plain []⟩ :=
  ⟨(c8_destination_required (fun s (_ : List String) => s) "t" 7 (Dest.plain []) "debug" []).1,
   (c8_destination_required (fun s (_ : List String) => s) "t" 7 (Dest.plain []) "debug" []).2.1,
   (c8_destination_required (fun s (_ : List String) => s) "t" 7 (Dest.plain []) "debug"
      []).2.2 Level.debug (by decide)⟩

/-- C9: every constructor variant called without a level argument leaves
the threshold at its initial value Warn, so Debug and Info calls are
filtered out by default. -/
theorem c9_default_warn {β : Type} (sprintf : String → List β → String) (ts : String)
    (pid : Nat) (d : Dest) (dir msg : String) :
    (NewLogger sprintf ts pid (some d) [] = NewLoggerResult.ok ⟨Level.warn, d⟩)
    ∧ (NewTerminalLogger sprintf ts pid [] = NewLoggerResult.ok ⟨Level.warn, Dest.plain []⟩)
    ∧ ((NewFileLogger sprintf ts pid dir (some ⟨true⟩) []).fst =
        NewLoggerResult.ok ⟨Level.warn, Dest.plain []⟩)
    ∧ ((NewBufferedFileLogger sprintf ts pid dir (some ⟨true⟩) []).fst =
        NewLoggerResult.ok ⟨Level.warn, Dest.buffered [] []⟩)
    ∧ (Logger.Debug sprintf ts pid ⟨Level.warn, d⟩ msg = ⟨Level.warn, d⟩)
    ∧ (Logger.Info sprintf ts pid ⟨Level.warn, d⟩ msg = ⟨Level.warn, d⟩) := by
  refine ⟨rfl, rfl, rfl, rfl, ?_, ?_⟩
  · rw [Debug_eq_emit]
    simp [emit, Level.sev]
  · rw [Info_eq_emit]
    simp [emit, Level.sev]

/-- C10: with zero variadic arguments every logging method hands the
message string to the engine verbatim — the result does not depend on the
formatting function at all, so no format verb is interpreted; the
formatting function is applied exactly when at least one argument is
supplied. -/
theorem c10_verbatim {α β : Type} (sprintf sprintf2 : String → List β → String)
    (origin : String → α) (s ts : String) (pid : Nat) (st : LoggerState) (v : List β) :
    (Logger.output sprintf origin s ([] : List β) = origin s)
    ∧ (v ≠ [] → Logger.output sprintf origin s v = origin (sprintf s v))
    ∧ (Logger.DebugF sprintf ts pid st s [] = emit ts pid Level.debug st s)
    ∧ (Logger.InfoF sprintf ts pid st s [] = emit ts pid Level.info st s)
    ∧ (Logger.WarnF sprintf ts pid st s [] = emit ts pid Level.warn st s)
    ∧ (Logger.ErrorF sprintf ts pid st s [] = emit ts pid Level.error st s)
    ∧ (Logger.FatalF sprintf ts pid st s [] = emit ts pid Level.fatal st s)
    ∧ (Logger.DebugF sprintf ts pid st s [] = Logger.DebugF sprintf2 ts pid st s [])
    ∧ (Logger.Debug sprintf ts pid st s = Logger.Debug sprintf2 ts pid st s)
    ∧ (v ≠ [] →
        Logger.DebugF sprintf ts pid st s v = emit ts pid Level.debug st (sprintf s v)) := by
  have hv : ∀ (origin2 : String → α), v ≠ [] →
      Logger.output sprintf origin2 s v = origin2 (sprintf s v) := by
    intro origin2 hne
    cases v with
    | nil => exact absurd rfl hne
    | cons a t => simp [Logger.output]
  have hv2 : v ≠ [] →
      Logger.output sprintf (emit ts pid Level.debug st) s v =
        emit ts pid Level.debug st (sprintf s v) := by
    intro hne
    cases v with
    | nil => exact absurd rfl hne
    | cons a t => simp [Logger.output]
  exact ⟨rfl, hv origin, rfl, rfl, rfl, rfl, rfl, rfl, rfl, hv2⟩

/-- C10 witness: a format string with a verb and no arguments passes
through unchanged regardless of the formatting function; with one
argument the formatting function is applied. -/
theorem c10_witness :
    (["x"] : List String) ≠ []
    ∧ Logger.output (fun s (l : List String) => String.join (s :: l)) (fun m => m) "100%s"
        ([] : List String) = "100%s"
    ∧ Logger.output (fun s (l : List String) => String.join (s :: l)) (fun m => m) "100%s"
        ["x"] = String.join ["100%s", "x"] :=
  ⟨by decide,
   (c10_verbatim (fun s (l : List String) => String.join (s :: l)) (fun s (_ : List String) => s)
      (fun m => m) "100%s" "t" 7 ⟨Level.warn, Dest.plain []⟩ ["x"]).1,
   (c10_verbatim (fun s (l : List String) => String.join (s :: l)) (fun s (_ : List String) => s)
      (fun m => m) "100%s" "t" 7 ⟨Level.warn, Dest.plain []⟩ ["x"]).2.1 (by decide)⟩
